import Mathlib

set_option maxRecDepth 8000
set_option maxHeartbeats 1000000

namespace SamsungTV

/-! Shallow embedding of the Samsung TV remote controller (tv.ts).
Pure functions are translated directly; the module-level mutable
connection state becomes an explicit `ConnState`, network effects become
oracle parameters, and dispatched device commands become an explicit
command trace. -/

/-- JS whitespace class as used by regex `\s` and `trim`, restricted to the
ASCII range that can occur in remote-control queries. -/
def isWs (c : Char) : Bool :=
  c == ' ' || c == '\t' || c == '\n' || c == '\r' || c == '\x0b' || c == '\x0c'

/-- JS word character class `\w` = ASCII letters, digits and underscore. -/
def isWordChar (c : Char) : Bool :=
  c.isAlphanum || c == '_'

def isWordOpt : Option Char → Bool
  | none => false
  | some c => isWordChar c

/-- Atoms of the regular expressions appearing in tv.ts: literal characters
(matched case-insensitively, flag `i`), `\s+`, `\s*`, an optional literal
(`x?`), and the word boundary `\b`. -/
inductive RAtom
  | lit (c : Char)
  | wsPlus
  | wsStar
  | opt (c : Char)
  | wb
deriving DecidableEq

/-- Backtracking matcher for one regex alternative, anchored at the current
position. `prev` is the character just before the position (needed for `\b`).
Returns the number of characters consumed. Fuel decreases on every call;
`atoms.length + cs.length + 1` always suffices because every recursive call
strictly decreases `atoms.length + cs.length`. -/
def matchA : Nat → Option Char → List RAtom → List Char → Option Nat
  | 0, _, _, _ => none
  | _ + 1, _, [], _ => some 0
  | f + 1, prev, RAtom.wb :: as, cs =>
      if isWordOpt prev != isWordOpt cs.head? then matchA f prev as cs else none
  | f + 1, _, RAtom.lit c :: as, x :: xs =>
      if x.toLower == c.toLower then (matchA f (some x) as xs).map (· + 1) else none
  | _ + 1, _, RAtom.lit _ :: _, [] => none
  | f + 1, _, RAtom.wsPlus :: as, x :: xs =>
      if isWs x then (matchA f (some x) (RAtom.wsStar :: as) xs).map (· + 1) else none
  | _ + 1, _, RAtom.wsPlus :: _, [] => none
  | f + 1, prev, RAtom.wsStar :: as, [] => matchA f prev as []
  | f + 1, prev, RAtom.wsStar :: as, x :: xs =>
      if isWs x then
        match matchA f (some x) (RAtom.wsStar :: as) xs with
        | some n => some (n + 1)
        | none => matchA f prev as (x :: xs)
      else matchA f prev as (x :: xs)
  | f + 1, prev, RAtom.opt _ :: as, [] => matchA f prev as []
  | f + 1, prev, RAtom.opt c :: as, x :: xs =>
      if x.toLower == c.toLower then
        match matchA f (some x) as xs with
        | some n => some (n + 1)
        | none => matchA f prev as (x :: xs)
      else matchA f prev as (x :: xs)

def matchAlt (prev : Option Char) (alt : List RAtom) (cs : List Char) : Option Nat :=
  matchA (alt.length + cs.length + 1) prev alt cs

/-- Ordered alternation: the first alternative that matches wins, as in JS. -/
def tryAlts (p : List (List RAtom)) (prev : Option Char) (cs : List Char) : Option Nat :=
  match p with
  | [] => none
  | alt :: rest =>
    match matchAlt prev alt cs with
    | some n => some n
    | none => tryAlts rest prev cs

/-- JS `RegExp.test`: try every start position from left to right. -/
def testA (p : List (List RAtom)) : Option Char → List Char → Bool
  | prev, [] => (tryAlts p prev []).isSome
  | prev, x :: xs => (tryAlts p prev (x :: xs)).isSome || testA p (some x) xs

/-- JS `String.replace(re, "")` without the `g` flag: delete the leftmost
match and keep the rest of the string unchanged. -/
def scan1 (p : List (List RAtom)) : Option Char → List Char → List Char
  | _, [] => []
  | prev, x :: xs =>
    match tryAlts p prev (x :: xs) with
    | some n => if n == 0 then x :: xs else List.drop n (x :: xs)
    | none => x :: scan1 p (some x) xs

/-- JS `String.replace(re, "")` with the `g` flag: delete every
non-overlapping match, scanning left to right over the original string. -/
def scanG (p : List (List RAtom)) : Nat → Option Char → List Char → List Char
  | 0, _, cs => cs
  | _ + 1, _, [] => []
  | f + 1, prev, x :: xs =>
    match tryAlts p prev (x :: xs) with
    | some n =>
      if n == 0 then x :: scanG p f (some x) xs
      else scanG p f (((x :: xs).take n).getLast?.getD x) (List.drop n (x :: xs))
    | none => x :: scanG p f (some x) xs

/-- JS `String.prototype.trim`. -/
def trimWs (cs : List Char) : List Char :=
  ((cs.dropWhile isWs).reverse.dropWhile isWs).reverse

def wlit (s : String) : List RAtom := s.data.map RAtom.lit

def wordAlt (s : String) : List RAtom := RAtom.wb :: wlit s ++ [RAtom.wb]

def onAlt (s : String) : List RAtom :=
  RAtom.wb :: wlit "on" ++ RAtom.wsPlus :: wlit s ++ [RAtom.wb]

/-- `/\bon\s+netflix\b|\bnetflix\b/i` -/
def netflixPat : List (List RAtom) := [onAlt "netflix", wordAlt "netflix"]

/-- `/\bon\s+disney\b|\bdisney\s*\+?\b/i` -/
def disneyPat : List (List RAtom) :=
  [onAlt "disney", RAtom.wb :: wlit "disney" ++ [RAtom.wsStar, RAtom.opt '+', RAtom.wb]]

/-- `/\bon\s+hulu\b|\bhulu\b/i` -/
def huluPat : List (List RAtom) := [onAlt "hulu", wordAlt "hulu"]

/-- `/\bon\s+hbo\b|\bhbo\b|\bon\s+max\b/i` -/
def hboPat : List (List RAtom) := [onAlt "hbo", wordAlt "hbo", onAlt "max"]

/-- `/\bon\s+prime\b|\bprime\s*video\b|\bamazon\b/i` -/
def primePat : List (List RAtom) :=
  [onAlt "prime", RAtom.wb :: wlit "prime" ++ RAtom.wsStar :: wlit "video" ++ [RAtom.wb],
   wordAlt "amazon"]

/-- `/\bon\s+youtube\b|\byoutube\b/i` -/
def youtubePat : List (List RAtom) := [onAlt "youtube", wordAlt "youtube"]

/-- `/\b(put on|play|watch|find|search|search for|look up)\b/gi`, with the
outer `\b` distributed into each alternative (equivalent, since `\b`
is deterministic and zero-width). -/
def stopPat : List (List RAtom) :=
  [wordAlt "put on", wordAlt "play", wordAlt "watch", wordAlt "find",
   wordAlt "search", wordAlt "search for", wordAlt "look up"]

/-- The ordered `APP_KEYWORDS` table from tv.ts. -/
def APP_KEYWORDS : List (List (List RAtom) × String) :=
  [(netflixPat, "Netflix"), (disneyPat, "Disney+"), (huluPat, "Hulu"),
   (hboPat, "HBO Max"), (primePat, "Prime Video"), (youtubePat, "YouTube")]

def stripStops (cs : List Char) : List Char := scanG stopPat cs.length none cs

def findKeyword : List (List (List RAtom) × String) → List Char →
    Option (List (List RAtom) × String)
  | [], _ => none
  | pa :: rest, cs => if testA pa.1 none cs then some pa else findKeyword rest cs

/-- `parseSmartQuery` from tv.ts: first matching keyword pattern wins; the
matched phrase (first occurrence) and every stoplist verb are deleted and
the remainder trimmed; with no match the app defaults to YouTube. -/
def parseSmartQuery (query : String) : String × String :=
  match findKeyword APP_KEYWORDS query.data with
  | some pa => (pa.2, String.mk (trimWs (stripStops (scan1 pa.1 none query.data))))
  | none => ("YouTube", String.mk (trimWs (stripStops query.data)))

/-! ## Data model -/

/-- `SamsungDevice`: ip, mac and display name. `friendlyName` is optional
because `connectToTV` may be called without one. -/
structure Device where
  ip : String
  mac : String
  friendlyName : Option String
deriving DecidableEq

/-- The single persisted record in `.tokens/tv-token.json`. -/
structure SavedConnection where
  ip : String
  mac : String
  friendlyName : Option String
  token : Option String
deriving DecidableEq

/-- `WebSocket.OPEN` readyState constant of the ws library. -/
def WS_OPEN : Nat := 1

/-- The module-level mutable state of tv.ts: the socket (`none` = null,
`some rs` = a socket whose readyState is `rs`), the connected device, and
the in-memory token. -/
structure ConnState where
  ws : Option Nat
  connectedDevice : Option Device
  savedToken : Option String
deriving DecidableEq

/-- State at process start: all three module variables are null/undefined. -/
def initConnState : ConnState := ⟨none, none, none⟩

/-- `ws !== null && ws.readyState === WebSocket.OPEN`. -/
def channelOpen (s : ConnState) : Bool := s.ws == some WS_OPEN

/-- `getStatus()` from tv.ts. -/
def getStatus (s : ConnState) : Bool × Option Device :=
  (channelOpen s, s.connectedDevice)

/-- `disconnect()` from tv.ts: a no-op when `ws` is null, otherwise closes
the socket and clears both `ws` and `connectedDevice`. -/
def disconnect (s : ConnState) : ConnState :=
  if s.ws.isSome then ⟨none, none, s.savedToken⟩ else s

/-- JS string truthiness for an optional token: defined and non-empty. -/
def tokenTruthy : Option String → Bool
  | none => false
  | some t => t != ""

/-- `saved?.ip === ip && saved.token ? saved.token : undefined` from
`connectToTV`. -/
def savedTokenFor (saved : Option SavedConnection) (ip : String) : Option String :=
  match saved with
  | some s => if s.ip == ip && tokenTruthy s.token then s.token else none
  | none => none

/-! ## Base64 (Buffer.toString("base64") for ASCII strings) -/

def b64Chars : List Char :=
  "ABCDEFGHIJKLMNOPQRSTUVWXYZabcdefghijklmnopqrstuvwxyz0123456789+/".data

def b64Char (n : Nat) : Char := b64Chars.getD n 'A'

def b64Encode : List Nat → List Char
  | [] => []
  | [a] => [b64Char (a / 4), b64Char (a % 4 * 16), '=', '=']
  | [a, b] => [b64Char (a / 4), b64Char (a % 4 * 16 + b / 16), b64Char (b % 16 * 4), '=']
  | a :: b :: c :: rest =>
      b64Char (a / 4) :: b64Char (a % 4 * 16 + b / 16) ::
      b64Char (b % 16 * 4 + c / 64) :: b64Char (c % 64) :: b64Encode rest

def base64 (s : String) : String := String.mk (b64Encode (s.data.map Char.toNat))

def APP_NAME : String := "SamsungWebRemote"

/-! ## Connection -/

/-- `buildWSUrl` from tv.ts: ws on 8001, wss otherwise; the token query
parameter is appended only when the token is truthy. -/
def buildWSUrl (ip : String) (port : Nat) (token : Option String) : String :=
  let protocol := if port == 8001 then "ws" else "wss"
  let url := protocol ++ "://" ++ ip ++ ":" ++ Nat.repr port ++
    "/api/v2/channels/samsung.remote.control?name=" ++ base64 APP_NAME
  match token with
  | some t => if t != "" then url ++ "&token=" ++ t else url
  | none => url

/-- Result of one `connectWS` handshake attempt, abstracted as an oracle:
`ok tok` is a resolved handshake whose final token (device-issued token, or
the presented one) is `tok`; `error` is any rejection, close or timeout. -/
abbrev Handshake := Nat → Option String → Except String (Option String)

/-- The port-selection and retry logic of `connectToTV`: an explicit truthy
port gets exactly one attempt; otherwise (`port` undefined, or `0`, which is
falsy in JS) 8002 is tried first and 8001 only if 8002 threw. Returns the
list of (port, token) attempts in order, and the outcome of the last one. -/
def connectAttempts (token : Option String) (port : Option Nat) (hs : Handshake) :
    List (Nat × Option String) × Except String (Option String) :=
  match port with
  | some p =>
    if p != 0 then ([(p, token)], hs p token)
    else
      match hs 8002 token with
      | Except.ok t => ([(8002, token)], Except.ok t)
      | Except.error _ => ([(8002, token), (8001, token)], hs 8001 token)
  | none =>
    match hs 8002 token with
    | Except.ok t => ([(8002, token)], Except.ok t)
    | Except.error _ => ([(8002, token), (8001, token)], hs 8001 token)

structure ConnectOutcome where
  success : Bool
  error : Option String
  state : ConnState
  savedFile : Option SavedConnection
  attempts : List (Nat × Option String)

/-- Tail of `connectToTV`: on a resolved handshake the module state is set
(socket, device, token together) and the saved-connection file is
overwritten wholesale; on a throw the catch clears `ws` and
`connectedDevice` (leaving `savedToken` and the file untouched). -/
def connectResult (s0 : ConnState) (sf : Option SavedConnection) (device : Device)
    (as : List (Nat × Option String)) : Except String (Option String) → ConnectOutcome
  | Except.ok tok =>
    { success := true, error := none,
      state := ⟨some WS_OPEN, some device, tok⟩,
      savedFile := some ⟨device.ip, device.mac, device.friendlyName, tok⟩,
      attempts := as }
  | Except.error e =>
    { success := false, error := some e,
      state := ⟨none, none, s0.savedToken⟩,
      savedFile := sf, attempts := as }

/-- `connectToTV` from tv.ts. `s0` is the module state before the call and
`sf` the saved-connection file on disk. -/
def connectToTV (s0 : ConnState) (sf : Option SavedConnection) (ip mac : String)
    (fn : Option String) (port : Option Nat) (hs : Handshake) : ConnectOutcome :=
  connectResult s0 sf ⟨ip, mac, fn⟩
    (connectAttempts (savedTokenFor sf ip) port hs).1
    (connectAttempts (savedTokenFor sf ip) port hs).2

/-! ## Discovery -/

/-- Shape of the `/api/v2/` probe response body: HTTP status ok-ness and the
optional `device` object with its optional fields. -/
structure DeviceMeta where
  ip : Option String
  wifiMac : Option String
  name : Option String
  modelName : Option String
deriving DecidableEq

structure ProbeResp where
  ok : Bool
  device : Option DeviceMeta
deriving DecidableEq

/-- JS `a || b` for an optional string against a default. -/
def strOr (o : Option String) (dflt : String) : String :=
  match o with
  | some s => if s != "" then s else dflt
  | none => dflt

/-- One iteration of the port loop in `probeTVByIP`: a non-ok response, a
network error (`none`) or a body without a `device` object (whose field
access throws and is swallowed) all yield nothing. -/
def probeOnce (resp : Option ProbeResp) (ip : String) : Option Device :=
  match resp with
  | some r =>
    if r.ok then
      match r.device with
      | some d =>
        some ⟨strOr d.ip ip, strOr d.wifiMac "",
              some (strOr d.name (strOr d.modelName "Samsung TV"))⟩
      | none => none
    else none
  | none => none

/-- `probeTVByIP` from tv.ts: try port 8001 then 8002, first hit wins. -/
def probeTVByIP (f : String → Nat → Option ProbeResp) (ip : String) : Option Device :=
  match probeOnce (f ip 8001) ip with
  | some d => some d
  | none => probeOnce (f ip 8002) ip

/-- `localIP.substring(0, localIP.lastIndexOf(".") + 1)`. -/
def takeToLastDot (s : String) : String :=
  String.mk ((s.data.reverse.dropWhile (fun c => c != '.')).reverse)

structure DiscoverOutcome where
  devices : List Device
  probedIPs : List String
deriving DecidableEq

/-- `discoverTVs` from tv.ts. `ssdpDevices` is what the SSDP pass returned,
`localIP` the local outbound IPv4 address (none if absent), `f` the HTTP
probe oracle. `probedIPs` records which addresses were actively probed. -/
def discoverTVs (ssdpDevices : List Device) (localIP : Option String)
    (f : String → Nat → Option ProbeResp) : DiscoverOutcome :=
  if ssdpDevices.length > 0 then ⟨ssdpDevices, []⟩
  else
    match localIP with
    | none => ⟨[], []⟩
    | some lip =>
      let ips := (List.range' 1 254).map (fun i => takeToLastDot lip ++ Nat.repr i)
      ⟨(ips.map (fun ip => probeTVByIP f ip)).filterMap id, ips⟩

/-! ## Commands -/

/-- A dispatched device command (the ephemeral Command of the data model).
`sendInput` carries the base64-encoded text of a SendInputString frame;
`castChannel`/`castHTTP` are the two deep-link dispatch paths. -/
inductive Cmd
  | rawKey (key : String)
  | sendInput (encoded : String)
  | wait (ms : Nat)
  | castChannel (appId contentId metaTag : String)
  | castHTTP (appId contentId metaTag : String)
deriving DecidableEq

def Cmd.isCastAttempt : Cmd → Bool
  | Cmd.castChannel _ _ _ => true
  | Cmd.castHTTP _ _ _ => true
  | _ => false

structure OpResult where
  success : Bool
  error : Option String
deriving DecidableEq

/-- `sendKey` from tv.ts. `kv` is `Keys[key]` from the external key table
(none = not in the enum, so the literal key is sent raw); `thr` models a
throw from `ws.send`, whose catch clears `ws` and `connectedDevice`. -/
def sendKey (s : ConnState) (key : String) (kv : Option String) (thr : Option String) :
    OpResult × ConnState × List Cmd :=
  if channelOpen s = false then
    ({ success := false, error := some "Not connected to any TV" }, s, [])
  else
    match thr with
    | some e => ({ success := false, error := some e }, ⟨none, none, s.savedToken⟩, [])
    | none => ({ success := true, error := none }, s, [Cmd.rawKey (kv.getD key)])

/-- `sendText` from tv.ts. -/
def sendText (s : ConnState) (text : String) (thr : Option String) :
    OpResult × ConnState × List Cmd :=
  if channelOpen s = false then
    ({ success := false, error := some "Not connected to any TV" }, s, [])
  else
    match thr with
    | some e => ({ success := false, error := some e }, ⟨none, none, s.savedToken⟩, [])
    | none => ({ success := true, error := none }, s, [Cmd.sendInput (base64 text)])

/-! ## App launch and cast -/

/-- The fixed `APP_IDS` table from tv.ts. -/
def APP_IDS : List (String × String) :=
  [("Netflix", "11101200001"), ("YouTube", "111299001912"),
   ("Disney+", "3201901017640"), ("Hulu", "3201601007625"),
   ("HBO Max", "3202301029760"), ("Prime Video", "3201512006785")]

def lookupApp (name : String) : Option String :=
  (APP_IDS.find? (fun p => p.1 == name)).map Prod.snd

/-- `/^\d+$/.test(appName)`. -/
def isNumericStr (s : String) : Bool := s != "" && s.data.all Char.isDigit

/-- Outcome of the direct HTTP request in `launchApp`. -/
inductive HttpOutcome
  | thrown (msg : String)
  | resp (ok : Bool) (message : Option String)
deriving DecidableEq

/-- The fetch tail of `launchApp`; also returns the endpoint that was hit. -/
def launchFetch (dev : Device) (resolvedId : String) (appName : String)
    (http : HttpOutcome) : OpResult × Option String :=
  let url := "http://" ++ dev.ip ++ ":8001/api/v2/applications/" ++ resolvedId
  match http with
  | HttpOutcome.thrown msg => ({ success := false, error := some msg }, some url)
  | HttpOutcome.resp true _ => ({ success := true, error := none }, some url)
  | HttpOutcome.resp false m =>
      ({ success := false, error := some (strOr m ("Failed to launch " ++ appName)) }, some url)

/-- `launchApp` from tv.ts: requires only an associated device; unknown app
names fall back to the raw name when it is purely numeric. The second
component is the application-launch endpoint actually requested (none when
no request was made). -/
def launchApp (s : ConnState) (appName : String) (http : HttpOutcome) :
    OpResult × Option String :=
  match s.connectedDevice with
  | none => ({ success := false, error := some "Not connected to any TV" }, none)
  | some dev =>
    match lookupApp appName with
    | some appId => launchFetch dev appId appName http
    | none =>
      if isNumericStr appName then launchFetch dev appName appName http
      else
        ({ success := false,
           error := some ("Unknown app: " ++ appName ++
             ". Use a known app name or a numeric app ID.") }, none)

/-- Modelled from the spec: the definition of `castToTV` is not present
under src/ — only its caller (the HTTP route layer, which imports it from
the TV module) is. Per spec section 4.3 it resolves `appName` via the same
`APP_IDS` table with no raw-id fallback (unknown names always fail with
UnknownApp, regardless of connection state, per section 8), requires both a
live channel and an associated device, builds a deep-link payload tagged
with `metaTag` if given else `contentId`, dispatches via the live channel
first and falls back to a direct HTTP request, succeeding if either path
succeeds. `wsOk`/`httpOk` are the two dispatch-path oracles. -/
def castToTV (s : ConnState) (appName contentId : String) (metaTag : Option String)
    (wsOk httpOk : Bool) : OpResult × List Cmd :=
  match lookupApp appName with
  | none => ({ success := false, error := some ("Unknown app: " ++ appName) }, [])
  | some appId =>
    if channelOpen s = false ∨ s.connectedDevice = none then
      ({ success := false, error := some "Not connected to any TV" }, [])
    else
      let tag := metaTag.getD contentId
      if wsOk then
        ({ success := true, error := none }, [Cmd.castChannel appId contentId tag])
      else if httpOk then
        ({ success := true, error := none },
         [Cmd.castChannel appId contentId tag, Cmd.castHTTP appId contentId tag])
      else
        ({ success := false, error := some "Cast failed" },
         [Cmd.castChannel appId contentId tag, Cmd.castHTTP appId contentId tag])

/-! ## Smart search -/

def SMARTHUB_OPEN_DELAY : Nat := 3000
def SEARCH_INPUT_DELAY : Nat := 1000
def SEARCH_RESULTS_DELAY : Nat := 3000
def NAVIGATE_DELAY : Nat := 500

structure SmartResult where
  success : Bool
  app : String
  search : String
  error : Option String
deriving DecidableEq

/-- `smartSearch` from tv.ts: after the connection check it parses the
query and unconditionally dispatches the timed SmartHub key/text sequence,
then reports success. -/
def smartSearch (s : ConnState) (query : String) : SmartResult × List Cmd :=
  if channelOpen s = false ∨ s.connectedDevice = none then
    ({ success := false, app := "", search := "", error := some "Not connected to any TV" }, [])
  else
    let pq := parseSmartQuery query
    let searchTerm := if pq.2 != "" then pq.2 else query
    ({ success := true, app := pq.1, search := searchTerm, error := none },
     [Cmd.rawKey "KEY_SMART_HUB", Cmd.wait SMARTHUB_OPEN_DELAY,
      Cmd.sendInput (base64 searchTerm), Cmd.wait SEARCH_INPUT_DELAY,
      Cmd.rawKey "KEY_ENTER", Cmd.wait SEARCH_RESULTS_DELAY,
      Cmd.rawKey "KEY_DOWN", Cmd.wait NAVIGATE_DELAY,
      Cmd.rawKey "KEY_ENTER"])

/-! ## Connection-state transition system -/

/-- Every mutation of the module-level connection state in tv.ts: a
`connectToTV` call (success or failure), the unexpected-close handler, a
send-time failure in `sendKey`/`sendText`, `disconnect`, and readyState
drift of an existing socket. -/
inductive Step : ConnState → ConnState → Prop
  | conn (s : ConnState) (sf : Option SavedConnection) (ip mac : String)
      (fn : Option String) (port : Option Nat) (hs : Handshake) :
      Step s (connectToTV s sf ip mac fn port hs).state
  | unexpectedClose (s : ConnState) :
      Step s ⟨none, none, s.savedToken⟩
  | key (s : ConnState) (k : String) (kv : Option String) (thr : Option String) :
      Step s (sendKey s k kv thr).2.1
  | text (s : ConnState) (t : String) (thr : Option String) :
      Step s (sendText s t thr).2.1
  | disc (s : ConnState) : Step s (disconnect s)
  | readyStateChange (s : ConnState) (rs : Nat) (h : s.ws ≠ none) :
      Step s ⟨some rs, s.connectedDevice, s.savedToken⟩

/-- States the process can actually be in. -/
def Reachable (s : ConnState) : Prop :=
  Relation.ReflTransGen Step initConnState s

/-! ## Concrete fixtures used by witnesses and counterexamples -/

def hsAlwaysOk : Handshake := fun _ _ => Except.ok (some "tk")

def hsAllFail : Handshake := fun _ _ => Except.error "no response from TV"

def hsOnly9000 : Handshake := fun p _ =>
  if p == 9000 then Except.ok none else Except.error "no response from TV"

def liveState : ConnState :=
  ⟨some WS_OPEN, some ⟨"192.168.1.20", "ab:cd", some "Den TV"⟩, some "tok"⟩

/-- Probe oracle where every host answers with the same reported device ip. -/
def fDup : String → Nat → Option ProbeResp :=
  fun _ _ => some ⟨true, some ⟨some "10.0.0.9", some "aa:bb", some "Living Room", none⟩⟩

def dupOut : DiscoverOutcome := discoverTVs [] (some "10.0.0.5") fDup

def savedEx : SavedConnection := ⟨"192.168.1.50", "cc:dd", some "Bedroom", some "tok123"⟩

/-! ## Helper lemmas -/

theorem connectResult_state_inv (s0 : ConnState) (sf : Option SavedConnection)
    (d : Device) (as : List (Nat × Option String)) (r : Except String (Option String)) :
    (connectResult s0 sf d as r).state.ws ≠ none →
    (connectResult s0 sf d as r).state.connectedDevice ≠ none := by
  cases r <;> simp [connectResult]

theorem connectResult_attempts (s0 : ConnState) (sf : Option SavedConnection)
    (d : Device) (as : List (Nat × Option String)) (r : Except String (Option String)) :
    (connectResult s0 sf d as r).attempts = as := by
  cases r <;> rfl

theorem connectResult_success_iff (s0 : ConnState) (sf : Option SavedConnection)
    (d : Device) (as : List (Nat × Option String)) (r : Except String (Option String)) :
    (connectResult s0 sf d as r).success = true ↔ ∃ t, r = Except.ok t := by
  cases r <;> simp [connectResult]

theorem sendKey_state_inv (s : ConnState) (k : String) (kv thr : Option String)
    (ih : s.ws ≠ none → s.connectedDevice ≠ none) :
    (sendKey s k kv thr).2.1.ws ≠ none → (sendKey s k kv thr).2.1.connectedDevice ≠ none := by
  unfold sendKey
  split
  · exact ih
  · cases thr with
    | some e => simp
    | none => exact ih

theorem sendText_state_inv (s : ConnState) (t : String) (thr : Option String)
    (ih : s.ws ≠ none → s.connectedDevice ≠ none) :
    (sendText s t thr).2.1.ws ≠ none → (sendText s t thr).2.1.connectedDevice ≠ none := by
  unfold sendText
  split
  · exact ih
  · cases thr with
    | some e => simp
    | none => exact ih

theorem step_inv {b c : ConnState} (h : Step b c)
    (ih : b.ws ≠ none → b.connectedDevice ≠ none) :
    c.ws ≠ none → c.connectedDevice ≠ none := by
  cases h with
  | conn sf ip mac fn port hs =>
      exact connectResult_state_inv b sf ⟨ip, mac, fn⟩
        (connectAttempts (savedTokenFor sf ip) port hs).1
        (connectAttempts (savedTokenFor sf ip) port hs).2
  | unexpectedClose => simp
  | key k kv thr => exact sendKey_state_inv b k kv thr ih
  | text t thr => exact sendText_state_inv b t thr ih
  | disc =>
      unfold disconnect
      split
      · simp
      · exact ih
  | readyStateChange rs hws => intro _; exact ih hws

theorem reachable_inv {s : ConnState} (h : Reachable s) :
    s.ws ≠ none → s.connectedDevice ≠ none := by
  unfold Reachable at h
  induction h with
  | refl => intro h0; exact absurd rfl h0
  | tail _ hstep ih => exact step_inv hstep ih

theorem channelOpen_ws {s : ConnState} (h : channelOpen s = true) : s.ws ≠ none := by
  unfold channelOpen at h
  intro h0
  rw [h0] at h
  simp at h

theorem connectAttempts_tokens (tok : Option String) (port : Option Nat) (hs : Handshake) :
    (connectAttempts tok port hs).1.all (fun a => a.2 == tok) = true ∧
    (connectAttempts tok port hs).1 ≠ [] := by
  cases port with
  | none =>
    simp only [connectAttempts]
    cases hs 8002 tok <;> simp
  | some p =>
    simp only [connectAttempts]
    by_cases hp : (p != 0) = true
    · rw [if_pos hp]; simp
    · rw [if_neg hp]; cases hs 8002 tok <;> simp

theorem savedTokenFor_iff (sf : Option SavedConnection) (ip : String) :
    (savedTokenFor sf ip ≠ none ↔
      ∃ s t, sf = some s ∧ s.ip = ip ∧ s.token = some t ∧ t ≠ "") ∧
    (∀ s, sf = some s → s.ip = ip → tokenTruthy s.token = true →
      savedTokenFor sf ip = s.token) := by
  constructor
  · cases sf with
    | none => simp [savedTokenFor]
    | some s =>
      simp only [savedTokenFor]
      by_cases h : (s.ip == ip && tokenTruthy s.token) = true
      · rw [if_pos h]
        simp only [Bool.and_eq_true, beq_iff_eq] at h
        obtain ⟨hip, htok⟩ := h
        cases htt : s.token with
        | none => rw [htt] at htok; exact absurd htok (by simp [tokenTruthy])
        | some t =>
          have tne : t ≠ "" := by
            rw [htt] at htok
            simpa [tokenTruthy] using htok
          constructor
          · intro _; exact ⟨s, t, rfl, hip, htt, tne⟩
          · intro _; simp
      · rw [if_neg h]
        constructor
        · intro h0; exact absurd rfl h0
        · rintro ⟨s', t, hs', hip, htk, tne⟩
          injection hs' with hss
          subst hss
          exfalso
          apply h
          rw [Bool.and_eq_true]
          refine ⟨by simp [hip], ?_⟩
          rw [htk]
          simpa [tokenTruthy] using tne
  · intro s hsf hip htt
    subst hsf
    simp only [savedTokenFor]
    rw [if_pos (by simp [hip, htt])]

theorem lookupApp_numeric_none (n : String) (hn : isNumericStr n = true) :
    lookupApp n = none := by
  unfold lookupApp
  cases hfind : APP_IDS.find? (fun p => p.1 == n) with
  | none => rfl
  | some p =>
    exfalso
    have hmem := List.mem_of_find?_eq_some hfind
    have hpred := List.find?_some hfind
    have hpn : p.1 = n := by simpa using hpred
    rw [← hpn] at hn
    simp only [APP_IDS, List.mem_cons, List.not_mem_nil, or_false] at hmem
    rcases hmem with h | h | h | h | h | h <;> (rw [h] at hn; exact absurd hn (by decide))

/-! ## Claims -/

/-- C1 (code-bug evidence): with a live channel, `smartSearch` on the
spec's example query dispatches only the scripted SmartHub key/text
fallback sequence; no deep-link cast attempt is ever made, contrary to the
claim that a `castToTV` attempt precedes the fallback. -/
theorem smartSearch_no_deeplink_eval :
    smartSearch liveState "play stranger things on netflix" =
      ({ success := true, app := "Netflix", search := "stranger things", error := none },
       [Cmd.rawKey "KEY_SMART_HUB", Cmd.wait 3000,
        Cmd.sendInput (base64 "stranger things"), Cmd.wait 1000,
        Cmd.rawKey "KEY_ENTER", Cmd.wait 3000,
        Cmd.rawKey "KEY_DOWN", Cmd.wait 500,
        Cmd.rawKey "KEY_ENTER"]) ∧
    ((smartSearch liveState "play stranger things on netflix").2.all
      (fun c => !c.isCastAttempt)) = true := by
  constructor <;> decide

/-- C2: `smartSearch` fails iff no live channel is open at the time of the
call: while disconnected it returns the NotConnected result and dispatches
no commands; in any reachable connected state it reports success. -/
theorem smartSearch_failure_iff (s : ConnState) (q : String) (h : Reachable s) :
    ((smartSearch s q).1.success = false ↔ channelOpen s = false) ∧
    (channelOpen s = false → smartSearch s q =
      ({ success := false, app := "", search := "", error := some "Not connected to any TV" },
       [])) ∧
    (channelOpen s = true →
      (smartSearch s q).1.success = true ∧ (smartSearch s q).1.error = none) := by
  by_cases hc : channelOpen s = true
  · have hdev : s.connectedDevice ≠ none := reachable_inv h (channelOpen_ws hc)
    have hguard : ¬(channelOpen s = false ∨ s.connectedDevice = none) := by
      simp [hc, hdev]
    have hval : (smartSearch s q).1.success = true ∧ (smartSearch s q).1.error = none := by
      unfold smartSearch
      rw [if_neg hguard]
      exact ⟨rfl, rfl⟩
    refine ⟨?_, ?_, fun _ => hval⟩
    · rw [hval.1, hc]
    · intro hfalse
      rw [hc] at hfalse
      cases hfalse
  · have hcf : channelOpen s = false := by
      cases hh : channelOpen s
      · rfl
      · exact absurd hh hc
    have hval : smartSearch s q =
        ({ success := false, app := "", search := "", error := some "Not connected to any TV" },
         []) := by
      unfold smartSearch
      rw [if_pos (Or.inl hcf)]
    refine ⟨?_, fun _ => hval, ?_⟩
    · rw [hval, hcf]
    · intro ht
      rw [ht] at hcf
      cases hcf

theorem smartSearch_failure_iff_witness :
    smartSearch initConnState "cat videos" =
      ({ success := false, app := "", search := "", error := some "Not connected to any TV" },
       []) :=
  (smartSearch_failure_iff initConnState "cat videos" Relation.ReflTransGen.refl).2.1 rfl

/-- C3 (code-bug evidence): the first spec example parses exactly as
stated, but the second yields search "for cat videos" — in the stoplist
alternation `search` precedes `search for`, so the longer verb can never
match and its "for" survives. -/
theorem parseSmartQuery_examples_eval :
    parseSmartQuery "play stranger things on netflix" = ("Netflix", "stranger things") ∧
    parseSmartQuery "search for cat videos" = ("YouTube", "for cat videos") := by
  constructor <;> decide

/-- C4 (code-bug evidence): six of the seven stoplist verbs alone yield an
empty search string, but "search for" yields "for". -/
theorem parseSmartQuery_stoplist_eval :
    parseSmartQuery "search for" = ("YouTube", "for") ∧
    parseSmartQuery "put on" = ("YouTube", "") ∧
    parseSmartQuery "play" = ("YouTube", "") ∧
    parseSmartQuery "watch" = ("YouTube", "") ∧
    parseSmartQuery "find" = ("YouTube", "") ∧
    parseSmartQuery "search" = ("YouTube", "") ∧
    parseSmartQuery "look up" = ("YouTube", "") := by
  refine ⟨?_, ?_, ?_, ?_, ?_, ?_, ?_⟩ <;> decide

/-- C5: every handshake attempt of `connectToTV` presents exactly the token
selected from the persisted record; that token exists iff the record
exists, its ip equals the requested ip and it carries a non-empty token —
in which case the record's token is reused verbatim. -/
theorem connect_token_iff (s0 : ConnState) (sf : Option SavedConnection)
    (ip mac : String) (fn : Option String) (port : Option Nat) (hs : Handshake) :
    ((connectToTV s0 sf ip mac fn port hs).attempts.all
        (fun a => a.2 == savedTokenFor sf ip) = true) ∧
    ((connectToTV s0 sf ip mac fn port hs).attempts ≠ []) ∧
    (savedTokenFor sf ip ≠ none ↔
      ∃ s t, sf = some s ∧ s.ip = ip ∧ s.token = some t ∧ t ≠ "") ∧
    (∀ s, sf = some s → s.ip = ip → tokenTruthy s.token = true →
      savedTokenFor sf ip = s.token) := by
  have ha := connectAttempts_tokens (savedTokenFor sf ip) port hs
  have hiff := savedTokenFor_iff sf ip
  refine ⟨?_, ?_, hiff.1, hiff.2⟩
  · simp only [connectToTV, connectResult_attempts]
    exact ha.1
  · simp only [connectToTV, connectResult_attempts]
    exact ha.2

theorem connect_token_iff_witness :
    savedTokenFor (some savedEx) "192.168.1.50" = some "tok123" ∧
    (connectToTV initConnState (some savedEx) "192.168.1.50" "cc:dd" none none
        hsAlwaysOk).attempts.all
      (fun a => a.2 == savedTokenFor (some savedEx) "192.168.1.50") = true := by
  have h := connect_token_iff initConnState (some savedEx) "192.168.1.50" "cc:dd" none none
    hsAlwaysOk
  refine ⟨?_, h.1⟩
  exact (h.2.2.2 savedEx rfl rfl (by decide)).trans rfl

/-- C6 counterexample: port 0 is a supplied explicit port argument, yet the
code (JS truthiness) does not make one attempt at that port — it makes two
attempts, at 8002 and then 8001. -/
theorem connect_port_zero_cex :
    ((connectToTV initConnState none "192.168.0.10" "aa:bb" none (some 0)
        hsAllFail).attempts.map Prod.fst = [8002, 8001]) ∧
    ((connectToTV initConnState none "192.168.0.10" "aa:bb" none (some 0)
        hsAllFail).attempts.map Prod.fst ≠ [0]) := by
  constructor <;> decide

/-- C6 (amended): for an explicit non-zero port exactly one handshake
attempt is made, at that port, and its outcome is reported; with no port
supplied, 8002 is attempted first and 8001 is attempted exactly when the
8002 attempt fails, the call succeeding iff the last attempt resolved. -/
theorem connect_port_policy (s0 : ConnState) (sf : Option SavedConnection)
    (ip mac : String) (fn : Option String) (hs : Handshake) :
    (∀ p, p ≠ 0 →
      (connectToTV s0 sf ip mac fn (some p) hs).attempts.map Prod.fst = [p] ∧
      ((connectToTV s0 sf ip mac fn (some p) hs).success = true ↔
        ∃ t, hs p (savedTokenFor sf ip) = Except.ok t)) ∧
    ((∃ t, hs 8002 (savedTokenFor sf ip) = Except.ok t) →
      (connectToTV s0 sf ip mac fn none hs).attempts.map Prod.fst = [8002] ∧
      (connectToTV s0 sf ip mac fn none hs).success = true) ∧
    (¬(∃ t, hs 8002 (savedTokenFor sf ip) = Except.ok t) →
      (connectToTV s0 sf ip mac fn none hs).attempts.map Prod.fst = [8002, 8001] ∧
      ((connectToTV s0 sf ip mac fn none hs).success = true ↔
        ∃ t, hs 8001 (savedTokenFor sf ip) = Except.ok t)) := by
  refine ⟨?_, ?_, ?_⟩
  · intro p hp
    have hp' : (p != 0) = true := by simpa using hp
    simp only [connectToTV, connectAttempts, hp', if_true]
    exact ⟨by simp [connectResult_attempts], by rw [connectResult_success_iff]⟩
  · rintro ⟨t, ht⟩
    simp only [connectToTV, connectAttempts, ht]
    refine ⟨by simp [connectResult_attempts], ?_⟩
    rw [connectResult_success_iff]
    exact ⟨t, rfl⟩
  · intro hne
    cases hh : hs 8002 (savedTokenFor sf ip) with
    | ok t => exact absurd ⟨t, hh⟩ hne
    | error e =>
      simp only [connectToTV, connectAttempts, hh]
      exact ⟨by simp [connectResult_attempts], by rw [connectResult_success_iff]⟩

theorem connect_port_policy_witness :
    (connectToTV initConnState none "10.0.0.3" "ee:ff" none (some 9000)
      hsOnly9000).attempts.map Prod.fst = [9000] ∧
    (connectToTV initConnState none "10.0.0.3" "ee:ff" none (some 9000)
      hsOnly9000).success = true := by
  have h := (connect_port_policy initConnState none "10.0.0.3" "ee:ff" none hsOnly9000).1
    9000 (by decide)
  exact ⟨h.1, h.2.mpr ⟨none, rfl⟩⟩

/-- C7 (amended): the active probe fallback runs only when the passive pass
returns zero devices — a non-empty passive result is returned as-is with no
probes issued. (The no-duplicate-ip half of the original claim is false:
see the counterexample.) -/
theorem discover_passive_shortcircuit (ssdp : List Device) (lip : Option String)
    (f : String → Nat → Option ProbeResp) :
    (ssdp ≠ [] → discoverTVs ssdp lip f = ⟨ssdp, []⟩) ∧
    ((discoverTVs ssdp lip f).probedIPs ≠ [] → ssdp = []) := by
  constructor
  · intro hne
    unfold discoverTVs
    rw [if_pos (List.length_pos.mpr hne)]
  · intro hpr
    by_cases hss : ssdp = []
    · exact hss
    · exfalso
      apply hpr
      unfold discoverTVs
      rw [if_pos (List.length_pos.mpr hss)]

theorem discover_passive_shortcircuit_witness :
    discoverTVs [⟨"10.0.0.4", "aa", none⟩] (some "10.0.0.5") fDup =
      ⟨[⟨"10.0.0.4", "aa", none⟩], []⟩ :=
  (discover_passive_shortcircuit [⟨"10.0.0.4", "aa", none⟩] (some "10.0.0.5") fDup).1
    (by decide)

/-- C7 counterexample: when distinct probed hosts report the same device ip
in their response bodies, the returned list contains duplicate ip values —
`discoverTVs` performs no deduplication. -/
theorem discover_dup_cex :
    dupOut.devices.length = 254 ∧
    (dupOut.devices.map Device.ip).take 2 = ["10.0.0.9", "10.0.0.9"] := by
  constructor <;> decide

/-- C8: `castToTV` with any app name absent from the APP_IDS table fails
with UnknownApp regardless of connection state and dispatches nothing;
purely numeric names are never in the table, so they fail too — whereas
`launchApp` with a numeric name and an associated device proceeds to the
application-launch HTTP request using the raw numeric id. -/
theorem castToTV_no_rawid_fallback :
    (∀ appName, lookupApp appName = none → ∀ (s : ConnState) (cid : String)
      (mt : Option String) (w hk : Bool),
      castToTV s appName cid mt w hk =
        ({ success := false, error := some ("Unknown app: " ++ appName) }, [])) ∧
    (∀ appName, isNumericStr appName = true → lookupApp appName = none) ∧
    (∀ (s : ConnState) (dev : Device) (appName : String) (http : HttpOutcome),
      s.connectedDevice = some dev → isNumericStr appName = true →
      (launchApp s appName http).2 =
        some ("http://" ++ dev.ip ++ ":8001/api/v2/applications/" ++ appName)) := by
  refine ⟨?_, fun n hn => lookupApp_numeric_none n hn, ?_⟩
  · intro appName h s cid mt w hk
    unfold castToTV
    rw [h]
  · intro s dev appName http hdev hnum
    unfold launchApp
    rw [hdev, lookupApp_numeric_none appName hnum, hnum]
    simp only [if_true]
    unfold launchFetch
    cases http with
    | thrown m => rfl
    | resp ok m => cases ok <;> rfl

theorem castToTV_no_rawid_fallback_witness :
    castToTV initConnState "12345" "vid" none false false =
      ({ success := false, error := some "Unknown app: 12345" }, []) ∧
    (launchApp ⟨none, some ⟨"1.2.3.4", "mm", none⟩, none⟩ "12345"
        (HttpOutcome.resp true none)).2 =
      some "http://1.2.3.4:8001/api/v2/applications/12345" := by
  have h := castToTV_no_rawid_fallback
  constructor
  · have h1 := h.1 "12345" (h.2.1 "12345" (by decide)) initConnState "vid" none false false
    rw [h1]
    decide
  · have h3 := h.2.2 ⟨none, some ⟨"1.2.3.4", "mm", none⟩, none⟩ ⟨"1.2.3.4", "mm", none⟩
      "12345" (HttpOutcome.resp true none) rfl (by decide)
    rw [h3]
    decide

/-- C9: in every reachable state, a non-null live channel handle implies a
non-null associated device, so `getStatus` never reports connected:true
with device:null. -/
theorem getStatus_connected_implies_device (s : ConnState) (h : Reachable s) :
    (s.ws ≠ none → s.connectedDevice ≠ none) ∧
    ((getStatus s).1 = true → (getStatus s).2 ≠ none) := by
  refine ⟨reachable_inv h, fun hc => ?_⟩
  exact reachable_inv h (channelOpen_ws hc)

theorem getStatus_connected_implies_device_witness :
    (getStatus (connectToTV initConnState none "10.0.0.2" "mm" none none
      hsAlwaysOk).state).2 ≠ none :=
  (getStatus_connected_implies_device _
    (Relation.ReflTransGen.single
      (Step.conn initConnState none "10.0.0.2" "mm" none none hsAlwaysOk))).2 (by decide)

/-- C10: a connect whose every handshake attempt failed leaves the
persisted SavedConnection untouched — the save happens only after a
successful handshake. -/
theorem connect_failure_preserves_saved (s0 : ConnState) (sf : Option SavedConnection)
    (ip mac : String) (fn : Option String) (port : Option Nat) (hs : Handshake)
    (h : (connectToTV s0 sf ip mac fn port hs).success = false) :
    (connectToTV s0 sf ip mac fn port hs).savedFile = sf := by
  simp only [connectToTV] at h ⊢
  cases hr : (connectAttempts (savedTokenFor sf ip) port hs).2 with
  | ok t =>
    rw [hr] at h
    simp [connectResult] at h
  | error e => rfl

theorem connect_failure_preserves_saved_witness :
    (connectToTV initConnState (some savedEx) "192.168.1.50" "cc:dd" none none
      hsAllFail).savedFile = some savedEx :=
  connect_failure_preserves_saved initConnState (some savedEx) "192.168.1.50" "cc:dd"
    none none hsAllFail (by decide)

end SamsungTV
